import Mathlib

/-!
Verification development for the ClosetMate frontend wardrobe core.

The definitions below are a shallow embedding of the JavaScript sources:

* `src/frontend/src/store/wardrobeStore.js` — the ItemStore (`fetchItems`,
  `addItem`, `updateItem`, `removeItem`);
* the helper module re-exported through `../utils` — `transformItemsForDisplay`,
  `validateImageFile`;
* `src/frontend/src/pages/Wardrobe/Wardrobe.jsx` — the upload/edit workflow
  handlers (`handleApplyUpload`, `handleRetryProcessing`,
  `handleUploadDifferent`, `handleCancelUpload`, `handleConfirmAction`,
  `handleCancelAction`, `handleUploadDifferentAction`, `handleSaveEdit`);
* `src/frontend/src/hooks/useWardrobeHandlers.js` — the inner `handleSaveEdit`;
* `src/frontend/src/components/ClothingDetail/ClothingDetail.jsx` —
  `normalizeValue` / `hasChanges`;
* `src/frontend/src/components/ClothingDropzone/ClothingDropzone.jsx` —
  `handleDrop`;
* `src/frontend/src/pages/Wardrobe/components/ProcessingError.jsx` — the
  retry-affordance rendering.

JavaScript dynamic values are modelled by the inductive `JVal`; property
access is association-list lookup, `a || b` is `jsOr`, and truthiness follows
the JS rules (empty string, 0, null, undefined are falsy).  Remote calls are
suspension points: each async store function takes the eventual settlement of
its network request as an explicit `Except` argument and additionally reports
how many network requests it issued, so that claims about "no network call"
are statable.
-/

/-- JavaScript runtime values, as far as the wardrobe code inspects them.
`NaN` and functions never arise in the inspected positions and are omitted. -/
inductive JVal where
  | vnull
  | vundefined
  | vbool (b : Bool)
  | vnum (n : Int)
  | vstr (s : String)
  | varr (elems : List JVal)
  | vobj (fields : List (String × JVal))

/-- JavaScript truthiness: `null`, `undefined`, `false`, `0` and `""` are
falsy; every array and object is truthy. -/
def truthy : JVal → Bool
  | .vnull => false
  | .vundefined => false
  | .vbool b => b
  | .vnum n => n != 0
  | .vstr s => s != ""
  | .varr _ => true
  | .vobj _ => true

/-- Property access `v.k` (and the optional chain `v?.k`, which coincides with
it here because absent properties and non-objects both yield `undefined`). -/
def getField (v : JVal) (k : String) : JVal :=
  match v with
  | .vobj fields => (fields.lookup k).getD .vundefined
  | _ => .vundefined

/-- The JavaScript short-circuiting disjunction `a || b` used as a
value-selection operator throughout the sources. -/
def jsOr (a b : JVal) : JVal :=
  if truthy a then a else b

/-- `Array.isArray`. -/
def isJsArray : JVal → Bool
  | .varr _ => true
  | _ => false

/-- JavaScript strict equality `===` restricted to the primitive values the
store actually compares (item ids are strings or numbers); reference equality
on objects/arrays is conservatively `false`. -/
def jStrictEq : JVal → JVal → Bool
  | .vnull, .vnull => true
  | .vundefined, .vundefined => true
  | .vbool a, .vbool b => a == b
  | .vnum a, .vnum b => a == b
  | .vstr a, .vstr b => a == b
  | _, _ => false

/-- The keys of an object value, in order; `[]` for non-objects. -/
def objKeys : JVal → List String
  | .vobj fields => fields.map (fun f => f.1)
  | _ => []

/-! ## `transformItemsForDisplay` (utils/helpers module) -/

/-- The per-item body of `transformItemsForDisplay`:
`image = item.image_url || item.original_image_url || item.image || item.preview`,
`name = item.item_name || item.itemName || item.name || 'Untitled'`,
`weather = item.weather || item.season || item.item_weather || 'Untitled'`,
`id = item.id || item._id`, returned as an object literal with exactly those
four keys. -/
def transformItem (item : JVal) : JVal :=
  let imageUrl :=
    jsOr (jsOr (jsOr (getField item "image_url") (getField item "original_image_url"))
      (getField item "image")) (getField item "preview")
  .vobj
    [ ("image", imageUrl),
      ("name",
        jsOr (jsOr (jsOr (getField item "item_name") (getField item "itemName"))
          (getField item "name")) (.vstr "Untitled")),
      ("weather",
        jsOr (jsOr (jsOr (getField item "weather") (getField item "season"))
          (getField item "item_weather")) (.vstr "Untitled")),
      ("id", jsOr (getField item "id") (getField item "_id")) ]

/-- `transformItemsForDisplay`: returns `[]` with a console warning when the
argument is not an array, otherwise maps `transformItem`. -/
def transformItemsForDisplay (items : JVal) : List JVal :=
  match items with
  | .varr xs => xs.map transformItem
  | _ => []

/-! ## The ItemStore (wardrobeStore.js) -/

/-- The zustand store state created in `wardrobeStore.js`.  `items` is kept as
a Lean list (the code only ever stores arrays there; its defensive
`Array.isArray(state.items)` check is therefore always true). -/
structure StoreState where
  items : List JVal
  loading : Bool
  error : Option String
  openModal : Option String
  currentItemId : Option JVal

/-- The store's initial state. -/
def StoreState.init : StoreState :=
  { items := [], loading := false, error := none, openModal := none, currentItemId := none }

/-- The synchronous prefix of `fetchItems` up to and including issuing the
network request (`apiService.getAllItems()`).  It unconditionally sets
`loading`, clears `error`, and issues exactly one request; the returned `Nat`
counts the requests issued by this invocation. -/
def fetchItemsStart (s : StoreState) : StoreState × Nat :=
  ({ s with loading := true, error := none }, 1)

/-- The continuation of `fetchItems` once its network request settles.
Success: the response shape is probed in source order
(`Array.isArray(response)`, then `response?.items`, then `response?.data`,
with the initial `let rawItems = []` as the fall-through), normalized by
`transformItemsForDisplay` and stored.  Failure: the catch block stores the
message, clears `loading`, sets `items` to `[]`, and returns normally (the
rejection is not re-thrown). -/
def fetchItemsResolve (resp : Except String JVal) (s : StoreState) :
    StoreState × Except String Unit :=
  match resp with
  | .ok response =>
    let rawItems : JVal :=
      if isJsArray response then response
      else if truthy (getField response "items") then getField response "items"
      else if truthy (getField response "data") then getField response "data"
      else .varr []
    ({ s with items := transformItemsForDisplay rawItems, loading := false }, .ok ())
  | .error e =>
    ({ s with error := some e, loading := false, items := [] }, .ok ())

/-- The whole `fetchItems` call: start (request issued) then resolution.
Result: final state, the caller-visible outcome, and the number of network
requests issued. -/
def fetchItems (resp : Except String JVal) (s : StoreState) :
    StoreState × Except String Unit × Nat :=
  let started := fetchItemsStart s
  let finished := fetchItemsResolve resp started.1
  (finished.1, finished.2, started.2)

/-- `addItem`: issues `apiService.createItem`; on success extracts the payload
as `response.data?.data || response.data || response`, normalizes it through
`transformItemsForDisplay([payload])[0]`, appends it to the cache and returns
the new item's id; on failure stores the message and re-throws. -/
def addItem (imageFile : JVal) (itemName weather : String)
    (resp : Except String JVal) (s : StoreState) :
    StoreState × Except String JVal × Nat :=
  let s1 := { s with loading := true, error := none }
  match resp with
  | .ok response =>
    let payload :=
      jsOr (jsOr (getField (getField response "data") "data") (getField response "data")) response
    let newItem := (transformItemsForDisplay (.varr [payload])).headD .vundefined
    ({ s1 with items := s.items ++ [newItem], loading := false },
      .ok (getField newItem "id"), 1)
  | .error e =>
    ({ s1 with error := some e, loading := false }, .error e, 1)

/-- The `updates` object handed to `updateItem` / the save-edit handlers:
`{ itemName?, weather?, file? }` (absent fields are `undefined`). -/
structure UpdateArgs where
  itemName : Option String
  weather : Option String
  file : Option JVal

/-- `updateItem`: issues `apiService.updateItem`; on success extracts the
payload as `response.data?.data || response.data || response`, normalizes it,
and replaces the cache entry whose `id` strictly equals the given id; on
failure stores the message and re-throws.  The request body built from
`updates` lives at the remote boundary and does not affect the store state. -/
def updateItem (id : JVal) (updates : UpdateArgs) (resp : Except String JVal)
    (s : StoreState) : StoreState × Except String Unit × Nat :=
  let s1 := { s with loading := true, error := none }
  match resp with
  | .ok response =>
    let payload :=
      jsOr (jsOr (getField (getField response "data") "data") (getField response "data")) response
    let updatedItem := (transformItemsForDisplay (.varr [payload])).headD .vundefined
    ({ s1 with
        items := s.items.map (fun item =>
          if jStrictEq (getField item "id") id then updatedItem else item),
        loading := false }, .ok (), 1)
  | .error e =>
    ({ s1 with error := some e, loading := false }, .error e, 1)

/-- `removeItem`: issues `apiService.deleteItem`; on success filters the entry
with the given id out of the cache; on failure stores the message and
re-throws. -/
def removeItem (id : JVal) (resp : Except String JVal) (s : StoreState) :
    StoreState × Except String Unit × Nat :=
  let s1 := { s with loading := true, error := none }
  match resp with
  | .ok _ =>
    ({ s1 with
        items := s.items.filter (fun item => !(jStrictEq (getField item "id") id)),
        loading := false }, .ok (), 1)
  | .error e =>
    ({ s1 with error := some e, loading := false }, .error e, 1)

/-! ## String primitives

The JavaScript string methods the sources use (`trim`, `toLowerCase`,
`endsWith`) are given list-based definitions so that every theorem can be
checked on concrete inputs by kernel reduction. -/

/-- The whitespace characters `String.prototype.trim` strips in the inputs
that occur here (ASCII space, tab, CR, LF). -/
def charIsWs (c : Char) : Bool :=
  c == ' ' || c == '\t' || c == '\r' || c == '\n'

/-- Drop leading whitespace characters. -/
def dropWhileWs : List Char → List Char
  | [] => []
  | c :: cs => if charIsWs c then dropWhileWs cs else c :: cs

/-- JavaScript `s.trim()`. -/
def strTrim (s : String) : String :=
  ⟨(dropWhileWs (dropWhileWs s.data).reverse).reverse⟩

/-- ASCII lowering, the case `toLowerCase` exercises on file names here. -/
def charToLower (c : Char) : Char :=
  if c.toNat ≥ 65 && c.toNat ≤ 90 then Char.ofNat (c.toNat + 32) else c

/-- JavaScript `s.toLowerCase()`. -/
def strToLower (s : String) : String :=
  ⟨s.data.map charToLower⟩

/-- JavaScript `s.endsWith(suffix)`. -/
def strEndsWith (s suffix : String) : Bool :=
  suffix.data.isSuffixOf s.data

/-! ## ClothingDetail change detection (ClothingDetail.jsx) -/

/-- `normalizeValue` in `ClothingDetail.jsx`: the exact sentinel
(`DEFAULT_ITEM_NAME` = `DEFAULT_WEATHER` = `"Untitled"`) and every falsy value
(for the string-valued fields this is `""`) map to `""`; everything else is
returned unchanged.  Trimming is applied separately, after this map. -/
def normalizeValue (value : String) : String :=
  if value = "Untitled" || value = "" then "" else value

/-- The full normalization the `hasChanges` memo applies to each side:
`normalizeValue(v).trim()`. -/
def normalizeTrim (value : String) : String :=
  strTrim (normalizeValue value)

/-- The `hasChanges` memo of `ClothingDetail.jsx`: `false` outside edit mode;
otherwise compares `normalizeValue(x).trim()` of the persisted and edited
name and weather, and whether `editState.image !== null`. -/
def hasChanges (isEditing : Bool) (itemName itemWeather editName editWeather : String)
    (editImage : Option String) : Bool :=
  if !isEditing then false
  else
    let originalName := normalizeTrim itemName
    let editedName := normalizeTrim editName
    let originalWeather := normalizeTrim itemWeather
    let editedWeather := normalizeTrim editWeather
    let nameChanged := editedName != originalName
    let weatherChanged := editedWeather != originalWeather
    let imageChanged := editImage != none
    nameChanged || weatherChanged || imageChanged

/-! ## The two-layer save-edit no-op guard
(`Wardrobe.jsx handleSaveEdit` and `useWardrobeHandlers.js handleSaveEdit`) -/

/-- `(v || '').trim()` applied to a cached item's field, which is a `JVal`.
On the string values the cache holds this is JavaScript's behaviour; a
non-string field would make `.trim()` throw, so theorems about this guard
carry the hypothesis that the compared fields are strings. -/
def jsTrimOrEmpty (v : JVal) : String :=
  match jsOr v (.vstr "") with
  | .vstr s => strTrim s
  | _ => ""

/-- `!!updates.file` — truthiness of a possibly-absent value. -/
def optTruthy (o : Option JVal) : Bool :=
  match o with
  | some v => truthy v
  | none => false

/-- The outer no-op guard of `Wardrobe.jsx handleSaveEdit`: with the original
item found in the cache, compares `(updates.itemName || '').trim()` against
`(originalItem.name || '').trim()` (likewise weather) and `!!updates.file`;
returns `true` when the handler takes the early `return` (no changes). -/
def wardrobeSaveEditSkips (items : List JVal) (itemId : JVal) (updates : UpdateArgs) : Bool :=
  match items.find? (fun i => jStrictEq (getField i "id") itemId) with
  | some originalItem =>
    let nameChanged :=
      strTrim (updates.itemName.getD "") != jsTrimOrEmpty (getField originalItem "name")
    let weatherChanged :=
      strTrim (updates.weather.getD "") != jsTrimOrEmpty (getField originalItem "weather")
    let imageChanged := optTruthy updates.file
    !nameChanged && !weatherChanged && !imageChanged
  | none => false

/-- The inner re-check of `useWardrobeHandlers.js handleSaveEdit`:
`updates.itemName !== undefined && updates.itemName.trim() !== (originalItem.name || '').trim()`
(likewise weather), `updates.file !== undefined`; `true` when it returns
without calling `updateItem`. -/
def handlersSaveEditSkips (items : List JVal) (itemId : JVal) (updates : UpdateArgs) : Bool :=
  match items.find? (fun i => jStrictEq (getField i "id") itemId) with
  | some originalItem =>
    let nameChanged :=
      match updates.itemName with
      | some n => strTrim n != jsTrimOrEmpty (getField originalItem "name")
      | none => false
    let weatherChanged :=
      match updates.weather with
      | some w => strTrim w != jsTrimOrEmpty (getField originalItem "weather")
      | none => false
    let imageChanged := updates.file.isSome
    !nameChanged && !weatherChanged && !imageChanged
  | none => false

/-- The composed save-edit flow as it acts on the ItemStore: the outer guard
(early return, store untouched), then the inner guard (skips `updateItem` but
`Wardrobe.jsx` still refreshes via `fetchItems`), then `updateItem` followed —
only on success — by a `fetchItems` refresh.  Returns the final store state
and the number of `updateItem` network calls issued. -/
def runSaveEdit (itemId : JVal) (updates : UpdateArgs)
    (updResp fetchResp : Except String JVal) (s : StoreState) : StoreState × Nat :=
  if wardrobeSaveEditSkips s.items itemId updates then (s, 0)
  else if handlersSaveEditSkips s.items itemId updates then
    ((fetchItems fetchResp s).1, 0)
  else
    let updated := updateItem itemId updates updResp s
    match updated.2.1 with
    | .ok _ => ((fetchItems fetchResp updated.1).1, 1)
    | .error _ => (updated.1, 1)

/-! ## Client-side file precheck (utils `validateImageFile`, ClothingDropzone) -/

/-- A `File` as the precheck inspects it. -/
structure JsFile where
  name : String
  type : String
  size : Nat
deriving DecidableEq

/-- The result object of `validateImageFile`. -/
structure FileValidation where
  isValid : Bool
  error : Option String
  code : Option String

/-- The `isValidFormat` check of `validateImageFile`: the MIME type is in the
allowed list, or the lowercased file name ends in an allowed extension. -/
def fileFormatOk (f : JsFile) : Bool :=
  let allowedTypes := ["image/jpeg", "image/jpg", "image/png", "image/heic", "image/heif"]
  let allowedExtensions := [".jpg", ".jpeg", ".png", ".heic", ".heif"]
  let fileName := strToLower f.name
  allowedTypes.contains f.type || allowedExtensions.any (fun ext => strEndsWith fileName ext)

/-- `validateImageFile` (utils module): missing file, then MIME-or-extension
format check against JPEG/PNG/HEIC/HEIF, then the 10 MB size cap, in that
order. -/
def validateImageFile (file : Option JsFile) : FileValidation :=
  match file with
  | none => { isValid := false, error := some "No file selected", code := some "no-file" }
  | some f =>
    if !fileFormatOk f then
      { isValid := false, error := some "Please upload a JPEG, PNG, or HEIC image.",
        code := some "file-invalid-type" }
    else if f.size > 10 * 1024 * 1024 then
      { isValid := false, error := some "File is too large. Maximum size is 10MB.",
        code := some "file-too-large" }
    else
      { isValid := true, error := none, code := none }

/-- The partition `handleDrop` (ClothingDropzone.jsx) performs with its
`forEach`: each file goes to `validFiles` or to `rejectedFiles` tagged with
its validation code.  Only `validFiles` ever become `uploadedFiles`, the sole
source of the later `onApply` → `processImage` network submission; when
`validFiles` is empty the handler returns before accepting anything. -/
def handleDrop (files : List JsFile) : List JsFile × List (JsFile × Option String) :=
  match files with
  | [] => ([], [])
  | f :: rest =>
    let validation := validateImageFile (some f)
    let split := handleDrop rest
    if validation.isValid then (f :: split.1, split.2)
    else (split.1, (f, validation.code) :: split.2)

/-! ## The upload workflow of Wardrobe.jsx -/

/-- The `uploadState` values of `Wardrobe.jsx`. -/
inductive UploadState where
  | idle | processing | saving | updating | deleting | error | confirming
deriving DecidableEq

/-- The upload-workflow slice of the `Wardrobe` component state. -/
structure WardrobeUI where
  uploadState : UploadState
  uploadedFile : Option String
  processedImageUrl : JVal
  retryCount : Nat
  openModal : Option String

/-- Initial component state: `useState('idle')`, `useState(null)` twice,
`useState(0)`. -/
def WardrobeUI.init : WardrobeUI :=
  { uploadState := .idle, uploadedFile := none, processedImageUrl := .vnull,
    retryCount := 0, openModal := none }

/-- The processed-image extraction shared by the processing handlers:
`result.data?.processed_url || result.processed_url || result.image_url || result.processed_image_url`. -/
def extractImageUrl (result : JVal) : JVal :=
  jsOr (jsOr (jsOr (getField (getField result "data") "processed_url")
    (getField result "processed_url")) (getField result "image_url"))
    (getField result "processed_image_url")

/-- `handleApplyUpload`: stores the file, closes the upload modal, enters
`processing` with `retryCount = 0`, issues one `processImage` call; on a
response with a truthy url stores it, enters `confirming` and surfaces the
success toast; a missing url throws into the catch and, like a rejection,
lands in `error` (retryCount untouched).  Result: new state, calls issued,
whether the success toast was shown. -/
def handleApplyUpload (f : String) (resp : Except String JVal) (s : WardrobeUI) :
    WardrobeUI × Nat × Bool :=
  let s1 := { s with
    uploadedFile := some f, openModal := none,
    uploadState := .processing, retryCount := 0 }
  match resp with
  | .ok result =>
    let imageUrl := extractImageUrl result
    if !truthy imageUrl then ({ s1 with uploadState := .error }, 1, false)
    else ({ s1 with processedImageUrl := imageUrl, uploadState := .confirming }, 1, true)
  | .error _ => ({ s1 with uploadState := .error }, 1, false)

/-- `handleRetryProcessing`: a no-op (no call) unless a file is held and
`retryCount < 2`; otherwise re-enters `processing`, increments `retryCount`
by one before the call, and on success (no missing-url check here) stores the
extracted url, enters `confirming` and surfaces the success toast. -/
def handleRetryProcessing (resp : Except String JVal) (s : WardrobeUI) :
    WardrobeUI × Nat × Bool :=
  if s.uploadedFile = none ∨ s.retryCount ≥ 2 then (s, 0, false)
  else
    let s1 := { s with uploadState := .processing, retryCount := s.retryCount + 1 }
    match resp with
    | .ok result =>
      ({ s1 with processedImageUrl := extractImageUrl result, uploadState := .confirming },
        1, true)
    | .error _ => ({ s1 with uploadState := .error }, 1, false)

/-- `handleProcessEditImage` (re-processing during edit mode): enters
`processing`, issues one call; truthy url ⇒ store url and file, `confirming`,
success toast; missing url or rejection ⇒ `error`.  `retryCount` untouched. -/
def handleProcessEditImage (f : String) (resp : Except String JVal) (s : WardrobeUI) :
    WardrobeUI × Nat × Bool :=
  let s1 := { s with uploadState := .processing }
  match resp with
  | .ok result =>
    let imageUrl := extractImageUrl result
    if !truthy imageUrl then ({ s1 with uploadState := .error }, 1, false)
    else ({ s1 with
      processedImageUrl := imageUrl, uploadedFile := some f,
      uploadState := .confirming }, 1, true)
  | .error _ => ({ s1 with uploadState := .error }, 1, false)

/-- `handleUploadDifferent` (offered by ProcessingError): back to `idle`,
session discarded, `retryCount` reset to 0, upload modal reopened. -/
def handleUploadDifferent (s : WardrobeUI) : WardrobeUI :=
  { s with
    uploadState := .idle, uploadedFile := none, processedImageUrl := .vnull,
    retryCount := 0, openModal := some "upload" }

/-- `handleCancelUpload` ("Return to Wardrobe" in ProcessingError): back to
`idle`, session discarded, `retryCount` reset to 0. -/
def handleCancelUpload (s : WardrobeUI) : WardrobeUI :=
  { s with
    uploadState := .idle, uploadedFile := none, processedImageUrl := .vnull,
    retryCount := 0 }

/-- `handleConfirmAction` (ImageConfirmation confirm): edit mode merges the
processed image into the selected item and clears the session fields; new
mode opens the details modal.  Either way `uploadState` becomes `idle`. -/
def handleConfirmAction (isEditMode : Bool) (s : WardrobeUI) : WardrobeUI :=
  if isEditMode then
    { s with uploadState := .idle, uploadedFile := none, processedImageUrl := .vnull }
  else
    { s with uploadState := .idle, openModal := some "details" }

/-- `handleCancelAction` (ImageConfirmation cancel): back to `idle`, session
discarded, `retryCount` reset to 0. -/
def handleCancelAction (s : WardrobeUI) : WardrobeUI :=
  { s with
    uploadState := .idle, uploadedFile := none, processedImageUrl := .vnull,
    retryCount := 0 }

/-- `handleUploadDifferentAction` (ImageConfirmation "upload different"):
discards the session and resets `retryCount`; new mode additionally reopens
the upload modal. -/
def handleUploadDifferentAction (isEditMode : Bool) (s : WardrobeUI) : WardrobeUI :=
  let base := { s with
    uploadState := .idle, uploadedFile := none,
    processedImageUrl := .vnull, retryCount := 0 }
  if isEditMode then base else { base with openModal := some "upload" }

/-- The UI events that drive the upload workflow.  Processing events carry the
settlement of the `processImage` request they issue. -/
inductive WEvent where
  | applyUpload (f : String) (resp : Except String JVal)
  | retryProcessing (resp : Except String JVal)
  | processEditImage (f : String) (resp : Except String JVal)
  | uploadDifferent
  | cancelUpload
  | confirmAction (isEditMode : Bool)
  | cancelAction
  | uploadDifferentAction (isEditMode : Bool)

/-- The grid / empty-wardrobe view — with the add button, the upload modal's
dropzone, and ClothingDetail's edit-mode file input — is rendered whenever
`renderContent` (Wardrobe.jsx) falls through all earlier branches: when
`uploadState` is `idle`, and also when it is `confirming` but
`processedImageUrl` is falsy, because the ImageConfirmation branch is guarded
by `uploadState === 'confirming' && processedImageUrl`.  (The falsy-url
confirming state is reachable: the retry success path stores the extracted
url without a missing-url check.) -/
def uploadControlsExposed (s : WardrobeUI) : Prop :=
  s.uploadState = .idle ∨
    (s.uploadState = .confirming ∧ truthy s.processedImageUrl = false)

instance (s : WardrobeUI) : Decidable (uploadControlsExposed s) := by
  unfold uploadControlsExposed
  infer_instance

/-- The ImageConfirmation buttons exist exactly when `renderContent` renders
that branch: `uploadState === 'confirming' && processedImageUrl`. -/
def confirmControlsExposed (s : WardrobeUI) : Prop :=
  s.uploadState = .confirming ∧ truthy s.processedImageUrl = true

instance (s : WardrobeUI) : Decidable (confirmControlsExposed s) := by
  unfold confirmControlsExposed
  infer_instance

/-- One UI step.  Each handler fires only from the states whose rendering
exposes its control (`renderContent` in Wardrobe.jsx): the dropzone and the
edit-mode file input whenever the grid view is rendered
(`uploadControlsExposed`), the ProcessingError buttons while `uploadState` is
`error`, the ImageConfirmation buttons while it is `confirming` with a truthy
`processedImageUrl` — otherwise the event is impossible and the step is a
stutter.  Result: new state, `processImage` calls issued, success toast
shown. -/
def uiStep (s : WardrobeUI) (e : WEvent) : WardrobeUI × Nat × Bool :=
  match e with
  | .applyUpload f resp =>
    if uploadControlsExposed s then handleApplyUpload f resp s else (s, 0, false)
  | .retryProcessing resp =>
    if s.uploadState = .error then handleRetryProcessing resp s else (s, 0, false)
  | .processEditImage f resp =>
    if uploadControlsExposed s then handleProcessEditImage f resp s else (s, 0, false)
  | .uploadDifferent =>
    if s.uploadState = .error then (handleUploadDifferent s, 0, false) else (s, 0, false)
  | .cancelUpload =>
    if s.uploadState = .error then (handleCancelUpload s, 0, false) else (s, 0, false)
  | .confirmAction b =>
    if confirmControlsExposed s then (handleConfirmAction b s, 0, false) else (s, 0, false)
  | .cancelAction =>
    if confirmControlsExposed s then (handleCancelAction s, 0, false) else (s, 0, false)
  | .uploadDifferentAction b =>
    if confirmControlsExposed s then (handleUploadDifferentAction b s, 0, false)
    else (s, 0, false)

/-- Run a list of UI events. -/
def runUI (s : WardrobeUI) (es : List WEvent) : WardrobeUI :=
  es.foldl (fun st e => (uiStep st e).1) s

/-- `processImage` calls issued along an event list before the workflow next
returns to `idle` (the session boundary). -/
def callsUntilIdle (s : WardrobeUI) : List WEvent → Nat
  | [] => 0
  | e :: es =>
    if s.uploadState = .idle then 0
    else (uiStep s e).2.1 + callsUntilIdle (uiStep s e).1 es

/-- Success toasts surfaced along an event list before the workflow next
returns to `idle`. -/
def toastsUntilIdle (s : WardrobeUI) : List WEvent → Nat
  | [] => 0
  | e :: es =>
    if s.uploadState = .idle then 0
    else (if (uiStep s e).2.2 then 1 else 0) + toastsUntilIdle (uiStep s e).1 es

/-- The action buttons `ProcessingError.jsx` renders: the retry affordance is
shown only while `retryCount < 2`; at the cap it is replaced by
"Upload Different Image".  "Return to Wardrobe" is always offered. -/
def processingErrorActions (retryCount : Nat) : List String :=
  if retryCount < 2 then ["retry", "return"] else ["upload-different", "return"]

/-! ## Definitions modelled from the specification's wording

These are the comparison points for the refinement-style claims: each follows
the sentence of the specification it is named after, to be compared with the
definitions above, which follow the source. -/

/-- The envelope priority order as the specification words it for every
ItemStore operation: "accept a `{success, data}` wrapper, a bare
array/object, or an `{items: [...]}` wrapper, and normalize in that priority
order" — the data wrapper first, then the bare shape, then the items
wrapper. -/
def specEnvelopePayload (r : JVal) : JVal :=
  if truthy (getField r "data") then getField r "data"
  else if isJsArray r then r
  else if truthy (getField r "items") then getField r "items"
  else r

/-- The envelope order `fetchItems` actually implements, as the amended claim
words it: the bare array first, then the `{items}` wrapper, then the
`{success, data}` wrapper, and `[]` when nothing matches. -/
def fetchEnvelopePayload (r : JVal) : JVal :=
  if isJsArray r then r
  else if truthy (getField r "items") then getField r "items"
  else if truthy (getField r "data") then getField r "data"
  else .varr []

/-- The envelope order `addItem`/`updateItem` actually implement, as the
amended claim words it: a doubly-nested data wrapper first
(`response.data?.data`), then `response.data`, then the bare response. -/
def mutationEnvelopePayload (r : JVal) : JVal :=
  jsOr (jsOr (getField (getField r "data") "data") (getField r "data")) r

/-- The display-name fallback as the claim words it: "the first present among
service-specific name (item_name), generic name, defaulting to Untitled". -/
def specDisplayName (raw : JVal) : JVal :=
  jsOr (jsOr (getField raw "item_name") (getField raw "name")) (.vstr "Untitled")

/-- The weather fallback as the claim words it: "the first present among
weather, the generic season field, defaulting to Untitled". -/
def specDisplayWeather (raw : JVal) : JVal :=
  jsOr (jsOr (getField raw "weather") (getField raw "season")) (.vstr "Untitled")

/-- The display-image fallback as the claim (correctly) words it:
processed-image field, original-image field, generic image, local preview. -/
def specDisplayImage (raw : JVal) : JVal :=
  jsOr (jsOr (jsOr (getField raw "image_url") (getField raw "original_image_url"))
    (getField raw "image")) (getField raw "preview")

/-- The display-name fallback as the amended claim words it: `item_name`,
then the local `itemName`, then generic `name`, then the sentinel. -/
def amendedDisplayName (raw : JVal) : JVal :=
  jsOr (jsOr (jsOr (getField raw "item_name") (getField raw "itemName"))
    (getField raw "name")) (.vstr "Untitled")

/-- The weather fallback as the amended claim words it: `weather`, then
`season`, then `item_weather`, then the sentinel. -/
def amendedDisplayWeather (raw : JVal) : JVal :=
  jsOr (jsOr (jsOr (getField raw "weather") (getField raw "season"))
    (getField raw "item_weather")) (.vstr "Untitled")

/-- The shape of every normalized cache entry: an object with exactly the
keys `image`, `name`, `weather`, `id`, in that order. -/
def DisplayShape (v : JVal) : Prop :=
  objKeys v = ["image", "name", "weather", "id"]

/-! ## Concrete fixtures used by counterexamples and witnesses -/

/-- A cached item whose name is the sentinel, as `transformItemsForDisplay`
produces for a server row with `item_name = "Untitled"`. -/
def itemUntitled : JVal :=
  .vobj [("image", .vstr "img"), ("name", .vstr "Untitled"),
    ("weather", .vstr "Summer"), ("id", .vstr "1")]

/-- A cached item with an ordinary name. -/
def itemShirt : JVal :=
  .vobj [("image", .vstr "img"), ("name", .vstr "Shirt"),
    ("weather", .vstr "Summer"), ("id", .vstr "2")]

/-- A response carrying both an `items` wrapper and a `data` wrapper, with
different payloads, separating the two probe orders. -/
def bothWrappersResponse : JVal :=
  .vobj [("items", .varr [.vobj [("id", .vstr "A")]]),
    ("data", .varr [.vobj [("id", .vstr "B")]])]

/-- A 12 MB JPEG. -/
def bigJpeg : JsFile :=
  { name := "photo.jpg", type := "image/jpeg", size := 12 * 1024 * 1024 }

/-- A processing response that resolves successfully but carries none of the
url fields the extraction probes. -/
def noUrlSuccess : Except String JVal := .ok (.vobj [])

/-- A well-formed processing success response. -/
def goodProcessResponse : Except String JVal :=
  .ok (.vobj [("data", .vobj [("processed_url", .vstr "u2")])])

/-! ## Helper lemmas -/

/-- On a success response, `fetchItems` stores the normalization of the
payload probed in the order bare array, `{items}` wrapper, `{data}`
wrapper. -/
theorem fetchItems_ok_items (r : JVal) (s : StoreState) :
    (fetchItems (.ok r) s).1.items = transformItemsForDisplay (fetchEnvelopePayload r) := rfl

/-- On a success response, `addItem` appends the normalization of
`response.data?.data || response.data || response`. -/
theorem addItem_ok_items (imageFile : JVal) (n w : String) (r : JVal) (s : StoreState) :
    (addItem imageFile n w (.ok r) s).1.items
      = s.items ++ [transformItem (mutationEnvelopePayload r)] := rfl

/-- On a success response, `updateItem` replaces the entry with the matching
id by the normalization of `response.data?.data || response.data || response`. -/
theorem updateItem_ok_items (id : JVal) (updates : UpdateArgs) (r : JVal) (s : StoreState) :
    (updateItem id updates (.ok r) s).1.items
      = s.items.map (fun item =>
          if jStrictEq (getField item "id") id
          then transformItem (mutationEnvelopePayload r) else item) := rfl

/-- On a success response, `removeItem` filters out the entry with the
matching id. -/
theorem removeItem_ok_items (id : JVal) (r : JVal) (s : StoreState) :
    (removeItem id (.ok r) s).1.items
      = s.items.filter (fun item => !(jStrictEq (getField item "id") id)) := rfl

/-- Every output of `transformItem` has the four-key display shape. -/
theorem displayShape_transform (raw : JVal) : DisplayShape (transformItem raw) := rfl

/-- Every member of a `transformItemsForDisplay` result has the display
shape. -/
theorem displayShape_transformList (items v : JVal)
    (hv : v ∈ transformItemsForDisplay items) : DisplayShape v := by
  cases items <;> simp [transformItemsForDisplay] at hv
  obtain ⟨x, _, hxv⟩ := hv
  exact hxv ▸ displayShape_transform x

/-- Only files passing the precheck end up in `handleDrop`'s valid list. -/
theorem handleDrop_valid_sound (files : List JsFile) (v : JsFile)
    (hv : v ∈ (handleDrop files).1) : (validateImageFile (some v)).isValid = true := by
  induction files with
  | nil => simp [handleDrop] at hv
  | cons g rest ih =>
    by_cases hg : (validateImageFile (some g)).isValid = true
    · simp only [handleDrop, hg, if_pos] at hv
      rcases List.mem_cons.mp hv with h | h
      · exact h ▸ hg
      · exact ih h
    · simp only [handleDrop] at hv
      rw [if_neg (by simpa using hg)] at hv
      exact ih hv

/-- Every file failing the precheck lands in `handleDrop`'s rejected list,
tagged with its validation code. -/
theorem handleDrop_rejected_complete (files : List JsFile) (f : JsFile)
    (hf : f ∈ files) (hbad : (validateImageFile (some f)).isValid = false) :
    (f, (validateImageFile (some f)).code) ∈ (handleDrop files).2 := by
  induction files with
  | nil => simp at hf
  | cons g rest ih =>
    rcases List.mem_cons.mp hf with rfl | hmem
    · simp only [handleDrop]
      rw [if_neg (by simp [hbad])]
      exact List.mem_cons_self _ _
    · by_cases hg : (validateImageFile (some g)).isValid = true
      · simp only [handleDrop, hg, if_pos]
        exact ih hmem
      · simp only [handleDrop]
        rw [if_neg (by simpa using hg)]
        exact List.mem_cons_of_mem _ (ih hmem)

/-- If everything dropped fails the precheck, the valid list is empty and the
handler returns before accepting anything. -/
theorem handleDrop_all_rejected (files : List JsFile)
    (h : ∀ g ∈ files, (validateImageFile (some g)).isValid = false) :
    (handleDrop files).1 = [] := by
  induction files with
  | nil => rfl
  | cons g rest ih =>
    simp only [handleDrop]
    rw [if_neg (by simp [h g (List.mem_cons_self g rest)])]
    exact ih fun x hx => h x (List.mem_cons_of_mem g hx)

/-! ## Claim theorems -/

/-- C2 (counterexample): a `fetchItems` whose network request rejects does
not leave the cache as it was — it clears a previously populated cache to
`[]` — and the rejection is not propagated: the call resolves with `.ok ()`.
This falsifies the claim's "every ItemStore operation" at the concrete
populated store and rejection below. -/
theorem fetchItems_failure_breaks_claim :
    (fetchItems (.error "network down")
      { StoreState.init with items := [itemUntitled] }).1.items = [] ∧
    ({ StoreState.init with items := [itemUntitled] } : StoreState).items ≠ [] ∧
    (fetchItems (.error "network down")
      { StoreState.init with items := [itemUntitled] }).2.1 = Except.ok () := by
  refine ⟨rfl, ?_, rfl⟩
  simp [StoreState.init]

/-- C2 (amended): for `addItem`, `updateItem` and `removeItem` a rejected
remote call leaves the items cache exactly as it was and re-throws the error
to the caller; `fetchItems` is the exception — a rejected fetch clears the
cache to `[]`, records the message in the store's `error` field, and resolves
without propagating the rejection. -/
theorem store_failure_semantics (s : StoreState) (e : String) (imageFile id : JVal)
    (n w : String) (updates : UpdateArgs) :
    ((addItem imageFile n w (.error e) s).1.items = s.items ∧
      (addItem imageFile n w (.error e) s).2.1 = .error e) ∧
    ((updateItem id updates (.error e) s).1.items = s.items ∧
      (updateItem id updates (.error e) s).2.1 = .error e) ∧
    ((removeItem id (.error e) s).1.items = s.items ∧
      (removeItem id (.error e) s).2.1 = .error e) ∧
    ((fetchItems (.error e) s).1.items = [] ∧
      (fetchItems (.error e) s).2.1 = .ok () ∧
      (fetchItems (.error e) s).1.error = some e) :=
  ⟨⟨rfl, rfl⟩, ⟨rfl, rfl⟩, ⟨rfl, rfl⟩, rfl, rfl, rfl⟩

/-- C3 (counterexample): `fetchItems` issues its network request even when a
fetch is already in flight (`loading = true`) and even when the cache is
populated, and two invocations in rapid succession (the second starting while
the first is suspended) issue two requests, not one. -/
theorem fetchItems_no_dedup_guard :
    (fetchItems (.ok (.varr [])) { StoreState.init with loading := true }).2.2 = 1 ∧
    (fetchItems (.ok (.varr [])) { StoreState.init with items := [itemUntitled] }).2.2 = 1 ∧
    (fetchItemsStart ((fetchItemsStart StoreState.init).1)).2
      + (fetchItemsStart StoreState.init).2 = 2 :=
  ⟨rfl, rfl, rfl⟩

/-- C3 (amended): `fetchItems` has no de-duplication guard: every invocation
issues exactly one network request regardless of `loading` or of a populated
cache, so two rapid invocations issue exactly two requests. -/
theorem fetchItems_always_calls (s : StoreState) (resp : Except String JVal) :
    (fetchItems resp s).2.2 = 1 ∧ (fetchItemsStart s).2 = 1 ∧
    (fetchItemsStart ((fetchItemsStart s).1)).2 + (fetchItemsStart s).2 = 2 :=
  ⟨rfl, rfl, rfl⟩

/-- C7 (counterexample): on a response carrying both an `{items}` and a
`{data}` wrapper, `fetchItems` takes the `items` payload (id "A"), while the
claim's priority order — the data wrapper first — would take the `data`
payload (id "B"); the two disagree. -/
theorem fetch_envelope_order_breaks_claim :
    getField ((fetchItems (.ok bothWrappersResponse) StoreState.init).1.items.headD .vundefined)
      "id" = .vstr "A" ∧
    getField ((transformItemsForDisplay
      (specEnvelopePayload bothWrappersResponse)).headD .vundefined) "id" = .vstr "B" ∧
    JVal.vstr "A" ≠ JVal.vstr "B" := by
  refine ⟨rfl, rfl, ?_⟩
  intro h
  injection h with h2
  exact absurd h2 (by decide)

/-- C7 (amended): the response envelope is probed with two different priority
orders: `fetchItems` tries the bare array first, then the `{items}` wrapper,
then the `{data}` wrapper; `addItem`/`updateItem` try `response.data?.data`,
then `response.data`, then the bare response (never `items`). -/
theorem store_envelope_order (r : JVal) (s : StoreState) (imageFile id : JVal)
    (n w : String) (updates : UpdateArgs) :
    (fetchItems (.ok r) s).1.items = transformItemsForDisplay (fetchEnvelopePayload r) ∧
    (addItem imageFile n w (.ok r) s).1.items
      = s.items ++ [transformItem (mutationEnvelopePayload r)] ∧
    (updateItem id updates (.ok r) s).1.items
      = s.items.map (fun item =>
          if jStrictEq (getField item "id") id
          then transformItem (mutationEnvelopePayload r) else item) :=
  ⟨fetchItems_ok_items r s, addItem_ok_items imageFile n w r s,
    updateItem_ok_items id updates r s⟩

/-- C8 (counterexample): normalization reads fallback fields the claim omits:
a raw item carrying only the local `itemName` field gets that name ("Hat")
where the claim's chain (item_name, then generic name, then default) yields
"Untitled"; likewise a raw item carrying only `item_weather` keeps "Winter"
where the claim's chain yields "Untitled". -/
theorem transform_fallback_breaks_claim :
    getField (transformItem (.vobj [("itemName", .vstr "Hat")])) "name" = .vstr "Hat" ∧
    specDisplayName (.vobj [("itemName", .vstr "Hat")]) = .vstr "Untitled" ∧
    getField (transformItem (.vobj [("item_weather", .vstr "Winter")])) "weather"
      = .vstr "Winter" ∧
    specDisplayWeather (.vobj [("item_weather", .vstr "Winter")]) = .vstr "Untitled" ∧
    JVal.vstr "Hat" ≠ JVal.vstr "Untitled" := by
  refine ⟨rfl, rfl, rfl, rfl, ?_⟩
  intro h
  injection h with h2
  exact absurd h2 (by decide)

/-- C8 (amended): for every raw item, the display image falls back through
`image_url`, `original_image_url`, `image`, `preview` (as claimed); the
display name falls back through `item_name`, the local `itemName`, the
generic `name`, then the "Untitled" sentinel; weather falls back through
`weather`, `season`, `item_weather`, then the sentinel; the id through `id`
then `_id`. -/
theorem transform_field_mapping (raw : JVal) :
    getField (transformItem raw) "image" = specDisplayImage raw ∧
    getField (transformItem raw) "name" = amendedDisplayName raw ∧
    getField (transformItem raw) "weather" = amendedDisplayWeather raw ∧
    getField (transformItem raw) "id" = jsOr (getField raw "id") (getField raw "_id") :=
  ⟨rfl, rfl, rfl, rfl⟩

/-- C6: the client-side precheck rejects locally with the typed reason —
`no-file` for an absent file, `file-invalid-type` when neither MIME type nor
extension is JPEG/PNG/HEIC/HEIF, `file-too-large` for a well-formatted file
over 10 MB — and a rejected file never enters `handleDrop`'s valid list, the
only source of the later `processImage` network submission (when every file
is rejected the handler returns with nothing accepted).  A 12 MB JPEG is
rejected with `file-too-large` and yields an empty valid list. -/
theorem precheck_rejects_locally (f : JsFile) (files : List JsFile) :
    ((validateImageFile none).isValid = false ∧
      (validateImageFile none).code = some "no-file") ∧
    (fileFormatOk f = false →
      (validateImageFile (some f)).isValid = false ∧
      (validateImageFile (some f)).code = some "file-invalid-type") ∧
    (fileFormatOk f = true → f.size > 10 * 1024 * 1024 →
      (validateImageFile (some f)).isValid = false ∧
      (validateImageFile (some f)).code = some "file-too-large") ∧
    ((validateImageFile (some f)).isValid = false → f ∈ files →
      f ∉ (handleDrop files).1 ∧
      (f, (validateImageFile (some f)).code) ∈ (handleDrop files).2) ∧
    ((∀ g ∈ files, (validateImageFile (some g)).isValid = false) →
      (handleDrop files).1 = []) ∧
    ((validateImageFile (some bigJpeg)).code = some "file-too-large" ∧
      handleDrop [bigJpeg] = ([], [(bigJpeg, some "file-too-large")])) := by
  refine ⟨⟨rfl, rfl⟩, ?_, ?_, ?_, handleDrop_all_rejected files, rfl, rfl⟩
  · intro hfmt
    constructor <;> simp [validateImageFile, hfmt]
  · intro hfmt hsize
    constructor <;> simp [validateImageFile, hfmt, hsize]
  · intro hbad hmem
    refine ⟨fun hv => ?_, handleDrop_rejected_complete files f hmem hbad⟩
    rw [handleDrop_valid_sound files f hv] at hbad
    exact absurd hbad (by decide)

/-- Witness for C6 at the 12 MB JPEG. -/
theorem precheck_rejects_locally_witness :
    (validateImageFile (some bigJpeg)).isValid = false ∧
    (validateImageFile (some bigJpeg)).code = some "file-too-large" ∧
    bigJpeg ∉ (handleDrop [bigJpeg]).1 := by
  have h := precheck_rejects_locally bigJpeg [bigJpeg]
  have h3 := h.2.2.1 (by decide) (by decide)
  exact ⟨h3.1, h3.2, (h.2.2.2.1 h3.1 (by simp)).1⟩

/-- C10: every normalized entry is an object with exactly the four keys
`image`, `name`, `weather`, `id` — the other persisted fields are never
among its keys — and every ItemStore operation preserves the property that
all cached entries have exactly that shape. -/
theorem cache_entries_shape (raw : JVal) (s : StoreState) (resp : Except String JVal)
    (imageFile id : JVal) (n w : String) (updates : UpdateArgs)
    (hinv : ∀ v ∈ s.items, DisplayShape v) :
    DisplayShape (transformItem raw) ∧
    (∀ k ∈ objKeys (transformItem raw), k ∈ (["image", "name", "weather", "id"] : List String)) ∧
    (∀ bad ∈ (["originalImageUrl", "fileName", "fileSize", "createdAt",
        "updatedAt"] : List String), bad ∉ objKeys (transformItem raw)) ∧
    (∀ v ∈ (fetchItems resp s).1.items, DisplayShape v) ∧
    (∀ v ∈ (addItem imageFile n w resp s).1.items, DisplayShape v) ∧
    (∀ v ∈ (updateItem id updates resp s).1.items, DisplayShape v) ∧
    (∀ v ∈ (removeItem id resp s).1.items, DisplayShape v) := by
  have hshape : objKeys (transformItem raw) = ["image", "name", "weather", "id"] := rfl
  have hlist : ∀ bad ∈ (["originalImageUrl", "fileName", "fileSize", "createdAt",
      "updatedAt"] : List String), bad ∉ (["image", "name", "weather", "id"] : List String) := by
    decide
  refine ⟨displayShape_transform raw,
    fun k hk => hshape ▸ hk,
    fun bad hbad => hshape ▸ hlist bad hbad, ?_, ?_, ?_, ?_⟩
  · cases resp with
    | ok r =>
      rw [fetchItems_ok_items]
      exact fun v hv => displayShape_transformList _ v hv
    | error e => intro v hv; simp [fetchItems, fetchItemsStart, fetchItemsResolve] at hv
  · cases resp with
    | ok r =>
      rw [addItem_ok_items]
      intro v hv
      rcases List.mem_append.mp hv with h | h
      · exact hinv v h
      · rcases List.mem_singleton.mp h with rfl
        exact displayShape_transform _
    | error e => exact fun v hv => hinv v hv
  · cases resp with
    | ok r =>
      rw [updateItem_ok_items]
      intro v hv
      rcases List.mem_map.mp hv with ⟨x, hx, rfl⟩
      by_cases hid : jStrictEq (getField x "id") id = true
      · simp only [hid, if_pos]
        exact displayShape_transform _
      · rw [if_neg (by simpa using hid)]
        exact hinv x hx
    | error e => exact fun v hv => hinv v hv
  · cases resp with
    | ok r =>
      rw [removeItem_ok_items]
      exact fun v hv => hinv v (List.mem_of_mem_filter hv)
    | error e => exact fun v hv => hinv v hv

/-- Witness for C10 at a one-entry store. -/
theorem cache_entries_shape_witness :
    DisplayShape (transformItem (.vobj [("item_name", .vstr "Hat")])) ∧
    (∀ v ∈ (removeItem (.vstr "1") (.ok (.vobj []))
      { StoreState.init with items := [itemUntitled] }).1.items, DisplayShape v) := by
  have h := cache_entries_shape (.vobj [("item_name", .vstr "Hat")])
    { StoreState.init with items := [itemUntitled] } (.ok (.vobj []))
    .vundefined (.vstr "1") "n" "w" ⟨none, none, none⟩
    (by intro v hv; rcases List.mem_singleton.mp hv with rfl; rfl)
  exact ⟨h.1, h.2.2.2.2.2.2⟩

/-- `jsOr v '' ` followed by `.trim()` on a string field is just `strTrim`. -/
theorem jsTrimOrEmpty_vstr (n : String) : jsTrimOrEmpty (.vstr n) = strTrim n := by
  by_cases h : n = ""
  · subst h; rfl
  · simp [jsTrimOrEmpty, jsOr, truthy, h]

/-- C1 (counterexample): under the claim's normalization the empty submitted
name and the persisted sentinel name are equal, yet the save-edit flow issues
the remote update call: the guard compares only trimmed strings, so the
""↔"Untitled" toggle counts as a change. -/
theorem save_edit_untitled_toggle_calls :
    normalizeTrim "" = normalizeTrim "Untitled" ∧
    (runSaveEdit (.vstr "1") ⟨some "", some "Summer", none⟩ (.ok (.vobj []))
      (.ok (.varr [])) { StoreState.init with items := [itemUntitled] }).2 = 1 :=
  ⟨rfl, by decide⟩

/-- C1 (amended): when the edited item is found in the cache and the
submitted name and weather agree with the persisted ones after trimming
whitespace only (no sentinel normalization), and no image file is attached,
the save-edit flow returns without issuing the update call and leaves the
store exactly as it was. -/
theorem save_edit_noop_guard (s : StoreState) (itemId : JVal) (updates : UpdateArgs)
    (updResp fetchResp : Except String JVal) (orig : JVal) (n w : String)
    (hfind : s.items.find? (fun i => jStrictEq (getField i "id") itemId) = some orig)
    (hn : getField orig "name" = .vstr n)
    (hw : getField orig "weather" = .vstr w)
    (heqn : strTrim (updates.itemName.getD "") = strTrim n)
    (heqw : strTrim (updates.weather.getD "") = strTrim w)
    (hfile : updates.file = none) :
    runSaveEdit itemId updates updResp fetchResp s = (s, 0) := by
  have hskip : wardrobeSaveEditSkips s.items itemId updates = true := by
    unfold wardrobeSaveEditSkips
    rw [hfind]
    simp [hn, hw, jsTrimOrEmpty_vstr, heqn, heqw, hfile, optTruthy]
  simp [runSaveEdit, hskip]

/-- Witness for C1's amended guard: a whitespace-only rename of "Shirt" plus
an unchanged weather, on a store holding that item. -/
theorem save_edit_noop_guard_witness :
    runSaveEdit (.vstr "2") ⟨some "  Shirt  ", some "Summer", none⟩ (.ok (.vobj []))
      (.ok (.varr [])) { StoreState.init with items := [itemShirt] }
      = ({ StoreState.init with items := [itemShirt] }, 0) :=
  save_edit_noop_guard _ _ _ _ _ itemShirt "Shirt" "Summer"
    rfl rfl rfl (by decide) (by decide) rfl

/-! ### Idempotence of character-list trimming -/

/-- Dropping leading whitespace twice is the same as dropping it once. -/
theorem dropWhileWs_idem (l : List Char) :
    dropWhileWs (dropWhileWs l) = dropWhileWs l := by
  induction l with
  | nil => rfl
  | cons c cs ih =>
    by_cases h : charIsWs c = true
    · simpa [dropWhileWs, h] using ih
    · simp [dropWhileWs, h]

/-- `dropWhileWs` returns a suffix of its input. -/
theorem dropWhileWs_suffix (l : List Char) : dropWhileWs l <:+ l := by
  induction l with
  | nil => exact List.suffix_rfl
  | cons c cs ih =>
    by_cases h : charIsWs c = true
    · rw [show dropWhileWs (c :: cs) = dropWhileWs cs from by simp [dropWhileWs, h]]
      exact ih.trans (List.suffix_cons c cs)
    · rw [show dropWhileWs (c :: cs) = c :: cs from by simp [dropWhileWs, h]]

/-- The head of a `dropWhileWs` result is never whitespace. -/
theorem dropWhileWs_head_false {l : List Char} {c : Char} {cs : List Char}
    (h : dropWhileWs l = c :: cs) : charIsWs c = false := by
  induction l with
  | nil => simp [dropWhileWs] at h
  | cons a as ih =>
    by_cases ha : charIsWs a = true
    · rw [show dropWhileWs (a :: as) = dropWhileWs as from by simp [dropWhileWs, ha]] at h
      exact ih h
    · rw [show dropWhileWs (a :: as) = a :: as from by simp [dropWhileWs, ha]] at h
      injection h with h1 h2
      subst h1
      simpa using ha

/-- A list whose head is not whitespace is fixed by `dropWhileWs`. -/
theorem dropWhileWs_eq_self_of_head (l : List Char)
    (h : ∀ c cs, l = c :: cs → charIsWs c = false) : dropWhileWs l = l := by
  cases l with
  | nil => rfl
  | cons c cs => simp [dropWhileWs, h c cs rfl]

/-- Trimming a character list from both ends is idempotent. -/
theorem trimChars_idem (l : List Char) :
    (dropWhileWs (dropWhileWs ((dropWhileWs (dropWhileWs l).reverse).reverse)).reverse).reverse
      = (dropWhileWs (dropWhileWs l).reverse).reverse := by
  have hmhead : ∀ c cs, dropWhileWs l = c :: cs → charIsWs c = false :=
    fun c cs h => dropWhileWs_head_false h
  have hkidem : dropWhileWs (dropWhileWs (dropWhileWs l).reverse)
      = dropWhileWs (dropWhileWs l).reverse := dropWhileWs_idem _
  have hksuf : dropWhileWs (dropWhileWs l).reverse <:+ (dropWhileWs l).reverse :=
    dropWhileWs_suffix _
  generalize hg : dropWhileWs l = m at hmhead hkidem hksuf ⊢
  generalize hk : dropWhileWs m.reverse = k at hkidem hksuf ⊢
  have hpre : k.reverse <+: m := by
    have h2 := List.reverse_prefix.mpr hksuf
    simpa using h2
  have hhead : ∀ c cs, k.reverse = c :: cs → charIsWs c = false := by
    intro c cs h
    obtain ⟨t, ht⟩ := hpre
    rw [h] at ht
    exact hmhead c (cs ++ t) ht.symm
  have h1 : dropWhileWs k.reverse = k.reverse := dropWhileWs_eq_self_of_head _ hhead
  rw [h1, List.reverse_reverse, hkidem]

/-- JavaScript `trim` is idempotent. -/
theorem strVtrim_idem (v : String) : strTrim (strTrim v) = strTrim v :=
  congrArg String.mk (trimChars_idem v.data)

/-- C5 (counterexample): the code's normalization — exact-sentinel map, then
trim — is not idempotent: `" Untitled "` normalizes to `"Untitled"` once and
to `""` twice; consequently a whitespace-only edit of the sentinel name is
reported as a change. -/
theorem normalization_not_idempotent :
    normalizeTrim (normalizeTrim " Untitled ") ≠ normalizeTrim " Untitled " ∧
    hasChanges true "Untitled" "Summer" " Untitled " "Summer" none = true :=
  ⟨by decide, by decide⟩

/-- C5 (amended): `hasChanges` is false in edit mode exactly when the code's
normalization (map the exact "Untitled" sentinel and the empty string to "",
then trim) makes the edited and persisted name and weather equal and no
pending image exists; it is always false outside edit mode; the exact
"Untitled"↔empty toggle is invisible to it; and its normalization is
idempotent at a string precisely when the string does not trim to the
sentinel while differing from it. -/
theorem hasChanges_characterization (itemName itemWeather editName editWeather : String)
    (editImage : Option String) (v : String) :
    (hasChanges true itemName itemWeather editName editWeather editImage = false ↔
      (normalizeTrim editName = normalizeTrim itemName ∧
       normalizeTrim editWeather = normalizeTrim itemWeather ∧ editImage = none)) ∧
    hasChanges false itemName itemWeather editName editWeather editImage = false ∧
    normalizeTrim "Untitled" = normalizeTrim "" ∧
    (normalizeTrim (normalizeTrim v) = normalizeTrim v ↔
      (strTrim v ≠ "Untitled" ∨ v = "Untitled")) := by
  refine ⟨?_, rfl, rfl, ?_⟩
  · simp only [hasChanges]
    simp [and_assoc]
  · constructor
    · intro hidem
      by_contra hcon
      push_neg at hcon
      obtain ⟨h1, h2⟩ := hcon
      by_cases hv2 : v = ""
      · subst hv2
        exact absurd h1 (by decide)
      · have hnv : normalizeTrim v = strTrim v := by
          simp [normalizeTrim, normalizeValue, h2, hv2]
        rw [hnv, h1] at hidem
        exact absurd hidem (by decide)
    · intro h
      rcases h with hne | rfl
      · by_cases hv1 : v = "Untitled"
        · subst hv1
          exact absurd (by decide) hne
        · by_cases hv2 : v = ""
          · subst hv2; rfl
          · have hnv : normalizeTrim v = strTrim v := by
              simp [normalizeTrim, normalizeValue, hv1, hv2]
            rw [hnv]
            by_cases hv3 : strTrim v = ""
            · rw [hv3]; rfl
            · simp [normalizeTrim, normalizeValue, hne, hv3, strVtrim_idem]
      · rfl

/-- A single UI step preserves the retry cap. -/
theorem uiStep_retryCount_le (s : WardrobeUI) (e : WEvent) (h : s.retryCount ≤ 2) :
    (uiStep s e).1.retryCount ≤ 2 := by
  cases e with
  | applyUpload f resp =>
    simp only [uiStep]
    split_ifs with hs
    · cases resp with
      | ok r =>
        simp only [handleApplyUpload]
        split_ifs <;> simp
      | error err => simp [handleApplyUpload]
    · exact h
  | retryProcessing resp =>
    simp only [uiStep]
    split_ifs with hs
    · simp only [handleRetryProcessing]
      split_ifs with hguard
      · exact h
      · push_neg at hguard
        have hlt : s.retryCount < 2 := hguard.2
        cases resp with
        | ok r => exact hlt
        | error err => exact hlt
    · exact h
  | processEditImage f resp =>
    simp only [uiStep]
    split_ifs with hs
    · cases resp with
      | ok r =>
        simp only [handleProcessEditImage]
        split_ifs <;> exact h
      | error err => exact h
    · exact h
  | uploadDifferent =>
    simp only [uiStep]
    split_ifs with hs
    · simp [handleUploadDifferent]
    · exact h
  | cancelUpload =>
    simp only [uiStep]
    split_ifs with hs
    · simp [handleCancelUpload]
    · exact h
  | confirmAction b =>
    simp only [uiStep]
    split_ifs with hs
    · cases b <;> simp only [handleConfirmAction] <;> split_ifs <;> exact h
    · exact h
  | cancelAction =>
    simp only [uiStep]
    split_ifs with hs
    · simp [handleCancelAction]
    · exact h
  | uploadDifferentAction b =>
    simp only [uiStep]
    split_ifs with hs
    · cases b <;> simp [handleUploadDifferentAction]
    · exact h

/-- The retry cap holds along every event list. -/
theorem runUI_retryCount_le (es : List WEvent) (s : WardrobeUI) (h : s.retryCount ≤ 2) :
    (runUI s es).retryCount ≤ 2 := by
  induction es generalizing s with
  | nil => exact h
  | cons e es ih =>
    simp only [runUI, List.foldl_cons]
    exact ih _ (uiStep_retryCount_le s e h)

/-- From the `confirming` state with a truthy stored url — the state in which
only the ImageConfirmation view is rendered — no UI event issues a processing
call or a success toast, and the next state is unchanged or `idle`. -/
theorem confirmingReady_step (s : WardrobeUI) (e : WEvent)
    (hs : s.uploadState = .confirming) (hurl : truthy s.processedImageUrl = true) :
    (uiStep s e).2.1 = 0 ∧ (uiStep s e).2.2 = false ∧
    ((uiStep s e).1 = s ∨ (uiStep s e).1.uploadState = .idle) := by
  have hsne2 : ¬ s.uploadState = .error := by rw [hs]; decide
  have hnup : ¬ uploadControlsExposed s := by
    rintro (h | ⟨h1, h2⟩)
    · rw [hs] at h; cases h
    · rw [hurl] at h2; cases h2
  have hcf : confirmControlsExposed s := ⟨hs, hurl⟩
  cases e with
  | applyUpload f resp => simp [uiStep, hnup]
  | retryProcessing resp => simp [uiStep, hsne2]
  | processEditImage f resp => simp [uiStep, hnup]
  | uploadDifferent => simp [uiStep, hsne2]
  | cancelUpload => simp [uiStep, hsne2]
  | confirmAction b => cases b <;> simp [uiStep, hcf, handleConfirmAction]
  | cancelAction => simp [uiStep, hcf, handleCancelAction]
  | uploadDifferentAction b => cases b <;> simp [uiStep, hcf, handleUploadDifferentAction]

/-- Once `idle` is reached, the session counter stops. -/
theorem callsUntilIdle_idle (s : WardrobeUI) (es : List WEvent)
    (hs : s.uploadState = .idle) : callsUntilIdle s es = 0 := by
  cases es <;> simp [callsUntilIdle, hs]

/-- No processing call is issued after `confirming`-with-url until the
session ends. -/
theorem callsUntilIdle_confirming (es : List WEvent) (s : WardrobeUI)
    (hs : s.uploadState = .confirming) (hurl : truthy s.processedImageUrl = true) :
    callsUntilIdle s es = 0 := by
  induction es generalizing s with
  | nil => rfl
  | cons e es ih =>
    have hc := confirmingReady_step s e hs hurl
    have hne : ¬ s.uploadState = .idle := by rw [hs]; decide
    simp only [callsUntilIdle]
    rw [if_neg hne, hc.1]
    rcases hc.2.2 with h | h
    · rw [h, ih _ hs hurl]
    · rw [callsUntilIdle_idle _ _ h]

/-- Once `idle` is reached, the toast counter stops. -/
theorem toastsUntilIdle_idle (s : WardrobeUI) (es : List WEvent)
    (hs : s.uploadState = .idle) : toastsUntilIdle s es = 0 := by
  cases es <;> simp [toastsUntilIdle, hs]

/-- No success toast is surfaced after `confirming`-with-url until the
session ends. -/
theorem toastsUntilIdle_confirming (es : List WEvent) (s : WardrobeUI)
    (hs : s.uploadState = .confirming) (hurl : truthy s.processedImageUrl = true) :
    toastsUntilIdle s es = 0 := by
  induction es generalizing s with
  | nil => rfl
  | cons e es ih =>
    have hc := confirmingReady_step s e hs hurl
    have hne : ¬ s.uploadState = .idle := by rw [hs]; decide
    simp only [toastsUntilIdle]
    rw [if_neg hne, hc.2.1]
    rcases hc.2.2 with h | h
    · rw [h, ih _ hs hurl]; simp
    · rw [toastsUntilIdle_idle _ _ h]; simp

/-- C4: a fresh submission enters processing with `retryCount = 0`; the
settlement of a processing call (success or failure) never changes
`retryCount` — the increment happens only on the explicit retry action; an
enabled retry (file held, count below the cap) increments the count by
exactly one and issues exactly one call; at the cap the retry handler is a
no-op issuing no call; the two remaining error-state actions reset the count
to 0; the count never exceeds 2 in any state reachable by UI events from a
capped state (in particular from the initial state, whose count is 0); and
once the cap is reached `ProcessingError` offers only "upload different" and
"return". -/
theorem retry_cap (s : WardrobeUI) (f : String) (resp r1 r2 : Except String JVal)
    (es : List WEvent) :
    (handleApplyUpload f resp s).1.retryCount = 0 ∧
    ((handleApplyUpload f r1 s).1.retryCount = (handleApplyUpload f r2 s).1.retryCount ∧
      (handleRetryProcessing r1 s).1.retryCount = (handleRetryProcessing r2 s).1.retryCount ∧
      (handleProcessEditImage f r1 s).1.retryCount
        = (handleProcessEditImage f r2 s).1.retryCount) ∧
    (s.uploadedFile ≠ none → s.retryCount < 2 →
      (handleRetryProcessing resp s).1.retryCount = s.retryCount + 1 ∧
      (handleRetryProcessing resp s).2.1 = 1) ∧
    (s.retryCount ≥ 2 → handleRetryProcessing resp s = (s, 0, false)) ∧
    ((handleUploadDifferent s).retryCount = 0 ∧ (handleCancelUpload s).retryCount = 0) ∧
    (s.retryCount ≤ 2 → (runUI s es).retryCount ≤ 2) ∧
    WardrobeUI.init.retryCount = 0 ∧
    (s.retryCount ≥ 2 → processingErrorActions s.retryCount = ["upload-different", "return"]) := by
  refine ⟨?_, ⟨?_, ?_, ?_⟩, ?_, ?_, ⟨rfl, rfl⟩, fun h => runUI_retryCount_le es s h, rfl, ?_⟩
  · cases resp with
    | ok r => simp only [handleApplyUpload]; split_ifs <;> rfl
    | error err => rfl
  · cases r1 <;> cases r2 <;> simp only [handleApplyUpload] <;> split_ifs <;> rfl
  · simp only [handleRetryProcessing]
    split_ifs with hguard
    · rfl
    · cases r1 <;> cases r2 <;> rfl
  · cases r1 <;> cases r2 <;> simp only [handleProcessEditImage] <;> split_ifs <;> rfl
  · intro hfile hlt
    have hguard : ¬ (s.uploadedFile = none ∨ 2 ≤ s.retryCount) := by
      push_neg
      exact ⟨hfile, hlt⟩
    simp only [handleRetryProcessing]
    rw [if_neg hguard]
    cases resp <;> exact ⟨rfl, rfl⟩
  · intro hcap
    simp only [handleRetryProcessing]
    rw [if_pos (Or.inr hcap)]
  · intro hcap
    simp only [processingErrorActions]
    rw [if_neg (by omega)]

/-- Witness for C4 at the capped error state: the retry request is a no-op
with no call, the retry affordance is gone, and the cap persists under
events. -/
theorem retry_cap_witness :
    (handleRetryProcessing (.ok (.vobj []))
      { WardrobeUI.init with uploadState := .error, uploadedFile := some "f", retryCount := 2 })
      = ({ WardrobeUI.init with
            uploadState := .error, uploadedFile := some "f", retryCount := 2 }, 0, false) ∧
    processingErrorActions 2 = ["upload-different", "return"] ∧
    (runUI
      { WardrobeUI.init with
        uploadState := .error, uploadedFile := some "f", retryCount := 2 }
      [.retryProcessing (.ok (.vobj []))]).retryCount ≤ 2 := by
  have h := retry_cap
    { WardrobeUI.init with uploadState := .error, uploadedFile := some "f", retryCount := 2 }
    "f" (.ok (.vobj [])) (.ok (.vobj [])) (.ok (.vobj []))
    [.retryProcessing (.ok (.vobj []))]
  exact ⟨h.2.2.2.1 (by decide), h.2.2.2.2.2.2.2 (by decide),
    h.2.2.2.2.2.1 (by decide)⟩

/-- C9 (counterexample): within a single session — the workflow never passes
through `idle` — two processing calls succeed and the success toast is
surfaced both times, refuting "surfaced only on the first-ever success of the
session": the first submission fails; a retry resolves successfully but
without a url, so the toast fires and the workflow sits in `confirming` with
a falsy stored reference, where `renderContent` falls through to the grid and
re-exposes the upload controls; a second submission from there succeeds and
fires the toast a second time before any return to `idle`. -/
theorem second_success_toast_in_session :
    (uiStep WardrobeUI.init (.applyUpload "f" (.error "boom"))).1.uploadState
      = .error ∧
    (uiStep (uiStep WardrobeUI.init (.applyUpload "f" (.error "boom"))).1
      (.retryProcessing noUrlSuccess)).1.uploadState = .confirming ∧
    truthy (uiStep (uiStep WardrobeUI.init (.applyUpload "f" (.error "boom"))).1
      (.retryProcessing noUrlSuccess)).1.processedImageUrl = false ∧
    callsUntilIdle (uiStep WardrobeUI.init (.applyUpload "f" (.error "boom"))).1
      [.retryProcessing noUrlSuccess, .applyUpload "g" goodProcessResponse] = 2 ∧
    toastsUntilIdle (uiStep WardrobeUI.init (.applyUpload "f" (.error "boom"))).1
      [.retryProcessing noUrlSuccess, .applyUpload "g" goodProcessResponse] = 2 := by
  decide

/-- C9 (amended): a processing call that resolves successfully always lands
the workflow in `confirming` with the extracted processed-image reference
stored, whatever the previous error/retryCount history — the initial
submission and the edit-mode re-processing require the response to carry a
truthy url (without one they route to `error`), while the retry path stores
the extracted reference unconditionally.  The success toast is surfaced on
every successful call, not only on the session's first.  When `confirming`
holds a truthy reference the confirmation view is the only rendered UI and no
further processing call or toast occurs before the workflow returns to
`idle`; but a retry success whose response lacks the reference leaves
`confirming` with a falsy reference, where the upload controls are re-exposed
and further calls and toasts can occur within the same session. -/
theorem processing_success_confirms (s : WardrobeUI) (f : String) (result : JVal)
    (es : List WEvent) (e : WEvent) :
    (truthy (extractImageUrl result) = true →
      (handleApplyUpload f (.ok result) s).1.uploadState = .confirming ∧
      (handleApplyUpload f (.ok result) s).1.processedImageUrl = extractImageUrl result ∧
      (handleApplyUpload f (.ok result) s).2.2 = true) ∧
    (s.uploadedFile ≠ none → s.retryCount < 2 →
      (handleRetryProcessing (.ok result) s).1.uploadState = .confirming ∧
      (handleRetryProcessing (.ok result) s).1.processedImageUrl = extractImageUrl result ∧
      (handleRetryProcessing (.ok result) s).2.2 = true) ∧
    (truthy (extractImageUrl result) = true →
      (handleProcessEditImage f (.ok result) s).1.uploadState = .confirming ∧
      (handleProcessEditImage f (.ok result) s).1.processedImageUrl = extractImageUrl result ∧
      (handleProcessEditImage f (.ok result) s).2.2 = true) ∧
    (s.uploadState = .confirming → truthy s.processedImageUrl = true →
      callsUntilIdle s es = 0 ∧ toastsUntilIdle s es = 0 ∧
      ((uiStep s e).1 = s ∨ (uiStep s e).1.uploadState = .idle)) ∧
    (s.uploadState = .confirming → truthy s.processedImageUrl = false →
      uploadControlsExposed s) := by
  refine ⟨?_, ?_, ?_, ?_, ?_⟩
  · intro hurl
    simp only [handleApplyUpload]
    rw [if_neg (by simp [hurl])]
    exact ⟨rfl, rfl, rfl⟩
  · intro hfile hlt
    have hguard : ¬ (s.uploadedFile = none ∨ 2 ≤ s.retryCount) := by
      push_neg
      exact ⟨hfile, hlt⟩
    simp only [handleRetryProcessing]
    rw [if_neg hguard]
    exact ⟨rfl, rfl, rfl⟩
  · intro hurl
    simp only [handleProcessEditImage]
    rw [if_neg (by simp [hurl])]
    exact ⟨rfl, rfl, rfl⟩
  · intro hs hurl
    exact ⟨callsUntilIdle_confirming es s hs hurl, toastsUntilIdle_confirming es s hs hurl,
      (confirmingReady_step s e hs hurl).2.2⟩
  · intro hs hurl
    exact Or.inr ⟨hs, hurl⟩

/-- Witness for C9: a retry success from the error state after one failure
lands in `confirming` with the toast; from a `confirming` state holding a
truthy reference a cancel event ends the session with no further call or
toast. -/
theorem processing_success_confirms_witness :
    (handleRetryProcessing
      (.ok (.vobj [("data", .vobj [("processed_url", .vstr "u")])]))
      { WardrobeUI.init with
        uploadState := .error, uploadedFile := some "f", retryCount := 1 }).1.uploadState
      = .confirming ∧
    (handleRetryProcessing
      (.ok (.vobj [("data", .vobj [("processed_url", .vstr "u")])]))
      { WardrobeUI.init with
        uploadState := .error, uploadedFile := some "f", retryCount := 1 }).2.2 = true ∧
    callsUntilIdle
      { WardrobeUI.init with
        uploadState := .confirming, processedImageUrl := .vstr "u" } [.cancelAction] = 0 ∧
    toastsUntilIdle
      { WardrobeUI.init with
        uploadState := .confirming, processedImageUrl := .vstr "u" } [.cancelAction] = 0 := by
  have h1 := processing_success_confirms
    { WardrobeUI.init with
      uploadState := .error, uploadedFile := some "f", retryCount := 1 }
    "f" (.vobj [("data", .vobj [("processed_url", .vstr "u")])]) [.cancelAction] .cancelAction
  have h2 := processing_success_confirms
    { WardrobeUI.init with
      uploadState := .confirming, processedImageUrl := .vstr "u" }
    "f" (.vobj [("data", .vobj [("processed_url", .vstr "u")])]) [.cancelAction] .cancelAction
  have hretry := h1.2.1 (by decide) (by decide)
  have hconf := h2.2.2.2.1 rfl (by decide)
  exact ⟨hretry.1, hretry.2.2, hconf.1, hconf.2.1⟩
